import Mathlib

/-!
Verification of the Roots fulfillment savings calculator.

The cost engine lives in src/components/calculator-results.tsx
(function calculateSavings together with the constant PACKAGE_SERVICES)
and src/lib/assumptions.ts (the assumptions table and getAssumptions).
All arithmetic in the source is ordinary numeric arithmetic over small
literals; we embed it over the rationals, which model the real-number
reading of the specification exactly.  Every definition below mirrors
the corresponding source declaration field by field.
-/

namespace RootsCalc

/-- Business inputs entered by the merchant, from the interface
MerchantInput in src/components/calculator-results.tsx. -/
structure MerchantInput where
  warehouseSize : ℚ
  ordersPerMonth : ℚ
  averageItemsPerOrder : ℚ
  deriving DecidableEq

/-- Storage assumptions, from interface StorageAssumptions in src/lib/assumptions.ts. -/
structure StorageAssumptions where
  costPerSqm : ℚ
  merchantOverheadMultiplier : ℚ
  deriving DecidableEq

/-- Inbound handling assumptions, from interface HandlingInAssumptions. -/
structure HandlingInAssumptions where
  laborCostPerMinute : ℚ
  merchantTimePerItem : ℚ
  rootsTimePerItem : ℚ
  rootsEfficiencyMultiplier : ℚ
  deriving DecidableEq

/-- Outbound handling assumptions, from interface HandlingOutAssumptions. -/
structure HandlingOutAssumptions where
  laborCostPerMinute : ℚ
  merchantTimePerOrder : ℚ
  rootsTimePerOrder : ℚ
  rootsEfficiencyMultiplier : ℚ
  deriving DecidableEq

/-- Delivery assumptions, from interface DeliveryAssumptions. -/
structure DeliveryAssumptions where
  deliveryAmman24hrsMerchant : ℚ
  deliveryAmman24hrsRoots : ℚ
  deriving DecidableEq

/-- Overhead assumptions, from interface OverheadAssumptions. -/
structure OverheadAssumptions where
  merchantOverheadRate : ℚ
  rootsOverhead : ℚ
  deriving DecidableEq

/-- The whole assumptions table, from interface Assumptions in src/lib/assumptions.ts. -/
structure Assumptions where
  storage : StorageAssumptions
  handlingIn : HandlingInAssumptions
  handlingOut : HandlingOutAssumptions
  delivery : DeliveryAssumptions
  overhead : OverheadAssumptions
  deriving DecidableEq

/-- The constant DEFAULT_ASSUMPTIONS of src/lib/assumptions.ts, value for value. -/
def DEFAULT_ASSUMPTIONS : Assumptions :=
  { storage := { costPerSqm := 12, merchantOverheadMultiplier := 1.25 }
    handlingIn :=
      { laborCostPerMinute := 0.5
        merchantTimePerItem := 2
        rootsTimePerItem := 1
        rootsEfficiencyMultiplier := 0.85 }
    handlingOut :=
      { laborCostPerMinute := 0.5
        merchantTimePerOrder := 5
        rootsTimePerOrder := 3
        rootsEfficiencyMultiplier := 0.85 }
    delivery := { deliveryAmman24hrsMerchant := 2.2, deliveryAmman24hrsRoots := 2.0 }
    overhead := { merchantOverheadRate := 0.2, rootsOverhead := 0 } }

/-- The function getAssumptions of src/lib/assumptions.ts: it returns the
module constant DEFAULT_ASSUMPTIONS. -/
def getAssumptions : Assumptions := DEFAULT_ASSUMPTIONS

/-- The four service tags, from type ServiceType in calculator-results.tsx. -/
inductive ServiceType where
  | storage
  | handlingIn
  | handlingOut
  | delivery
  deriving DecidableEq

/-- The three package identifiers, from type PackageType in calculator-results.tsx. -/
inductive PackageType where
  | fulfillment
  | storePack
  | sortPack
  deriving DecidableEq

/-- The services array of each entry of the constant PACKAGE_SERVICES in
calculator-results.tsx (the label and description strings are presentation
only and are not modelled). -/
def PACKAGE_SERVICES : PackageType → List ServiceType
  | .fulfillment => [.storage, .handlingIn, .handlingOut, .delivery]
  | .storePack => [.storage, .handlingIn, .handlingOut]
  | .sortPack => [.handlingIn, .handlingOut, .delivery]

/-- Per-party cost block of the result of calculateSavings
(the merchantCost and rootsCost objects it returns). -/
structure PartyCost where
  storage : ℚ
  handlingIn : ℚ
  handlingOut : ℚ
  delivery : ℚ
  overhead : ℚ
  total : ℚ
  deriving DecidableEq

/-- Savings block of the result of calculateSavings. -/
structure SavingsBlock where
  monthly : ℚ
  yearly : ℚ
  percentage : ℚ
  deriving DecidableEq

/-- The structure returned by calculateSavings.  The packageConfig field of
the source result is its label, description and services; only the services
list carries computational content, so it is what we keep. -/
structure CostComparisonResult where
  merchantCost : PartyCost
  rootsCost : PartyCost
  savings : SavingsBlock
  services : List ServiceType
  deriving DecidableEq

/-- totalItems, line 57 of calculator-results.tsx:
ordersPerMonth multiplied by averageItemsPerOrder. -/
def totalItems (i : MerchantInput) : ℚ :=
  i.ordersPerMonth * i.averageItemsPerOrder

/-- merchantStorage of calculateSavings: assigned inside the storage guard
on lines 69-72, left at its initial 0 otherwise. -/
def merchantStorage (i : MerchantInput) (p : PackageType) (a : Assumptions) : ℚ :=
  if ServiceType.storage ∈ PACKAGE_SERVICES p then
    i.warehouseSize * a.storage.costPerSqm * a.storage.merchantOverheadMultiplier
  else 0

/-- rootsStorage of calculateSavings (lines 69-72). -/
def rootsStorage (i : MerchantInput) (p : PackageType) (a : Assumptions) : ℚ :=
  if ServiceType.storage ∈ PACKAGE_SERVICES p then
    i.warehouseSize * a.storage.costPerSqm
  else 0

/-- merchantHandlingIn of calculateSavings (lines 74-79): handling time of
all items, times the labor cost per minute. -/
def merchantHandlingIn (i : MerchantInput) (p : PackageType) (a : Assumptions) : ℚ :=
  if ServiceType.handlingIn ∈ PACKAGE_SERVICES p then
    totalItems i * a.handlingIn.merchantTimePerItem * a.handlingIn.laborCostPerMinute
  else 0

/-- rootsHandlingIn of calculateSavings (lines 74-79): the Roots handling
time cost, further scaled by the efficiency multiplier. -/
def rootsHandlingIn (i : MerchantInput) (p : PackageType) (a : Assumptions) : ℚ :=
  if ServiceType.handlingIn ∈ PACKAGE_SERVICES p then
    totalItems i * a.handlingIn.rootsTimePerItem * a.handlingIn.laborCostPerMinute *
      a.handlingIn.rootsEfficiencyMultiplier
  else 0

/-- merchantHandlingOut of calculateSavings (lines 81-86), keyed by
ordersPerMonth. -/
def merchantHandlingOut (i : MerchantInput) (p : PackageType) (a : Assumptions) : ℚ :=
  if ServiceType.handlingOut ∈ PACKAGE_SERVICES p then
    i.ordersPerMonth * a.handlingOut.merchantTimePerOrder * a.handlingOut.laborCostPerMinute
  else 0

/-- rootsHandlingOut of calculateSavings (lines 81-86). -/
def rootsHandlingOut (i : MerchantInput) (p : PackageType) (a : Assumptions) : ℚ :=
  if ServiceType.handlingOut ∈ PACKAGE_SERVICES p then
    i.ordersPerMonth * a.handlingOut.rootsTimePerOrder * a.handlingOut.laborCostPerMinute *
      a.handlingOut.rootsEfficiencyMultiplier
  else 0

/-- merchantDelivery of calculateSavings (lines 88-93): a flat per-order rate. -/
def merchantDelivery (i : MerchantInput) (p : PackageType) (a : Assumptions) : ℚ :=
  if ServiceType.delivery ∈ PACKAGE_SERVICES p then
    i.ordersPerMonth * a.delivery.deliveryAmman24hrsMerchant
  else 0

/-- rootsDelivery of calculateSavings (lines 88-93). -/
def rootsDelivery (i : MerchantInput) (p : PackageType) (a : Assumptions) : ℚ :=
  if ServiceType.delivery ∈ PACKAGE_SERVICES p then
    i.ordersPerMonth * a.delivery.deliveryAmman24hrsRoots
  else 0

/-- The merchant subtotal appearing twice on lines 95-96 of
calculator-results.tsx: the sum of the four merchant service costs. -/
def merchantSubtotal (i : MerchantInput) (p : PackageType) (a : Assumptions) : ℚ :=
  merchantStorage i p a + merchantHandlingIn i p a + merchantHandlingOut i p a +
    merchantDelivery i p a

/-- merchantOverhead, line 95: subtotal times the merchant overhead rate. -/
def merchantOverhead (i : MerchantInput) (p : PackageType) (a : Assumptions) : ℚ :=
  merchantSubtotal i p a * a.overhead.merchantOverheadRate

/-- merchantTotal, line 96: the subtotal plus the merchant overhead. -/
def merchantTotal (i : MerchantInput) (p : PackageType) (a : Assumptions) : ℚ :=
  merchantSubtotal i p a + merchantOverhead i p a

/-- The Roots subtotal on line 99: the sum of the four Roots service costs. -/
def rootsSubtotal (i : MerchantInput) (p : PackageType) (a : Assumptions) : ℚ :=
  rootsStorage i p a + rootsHandlingIn i p a + rootsHandlingOut i p a + rootsDelivery i p a

/-- rootsOverhead, line 98: the fixed constant from the assumptions table. -/
def rootsOverheadCost (a : Assumptions) : ℚ := a.overhead.rootsOverhead

/-- rootsTotal, line 99: the Roots subtotal plus the fixed Roots overhead. -/
def rootsTotal (i : MerchantInput) (p : PackageType) (a : Assumptions) : ℚ :=
  rootsSubtotal i p a + rootsOverheadCost a

/-- monthlySavings, line 101: merchant total minus Roots total. -/
def monthlySavings (i : MerchantInput) (p : PackageType) (a : Assumptions) : ℚ :=
  merchantTotal i p a - rootsTotal i p a

/-- yearlySavings, line 102: the monthly savings times 12. -/
def yearlySavings (i : MerchantInput) (p : PackageType) (a : Assumptions) : ℚ :=
  monthlySavings i p a * 12

/-- savingsPercentage, line 103: guarded division by the merchant total. -/
def savingsPercentage (i : MerchantInput) (p : PackageType) (a : Assumptions) : ℚ :=
  if 0 < merchantTotal i p a then monthlySavings i p a / merchantTotal i p a * 100 else 0

/-- The body of calculateSavings generalized over the assumptions argument:
the contract computeSavings of the specification, taking the assumptions
table as an explicit parameter.  The body is exactly the source body of
calculateSavings, with the table a parameter instead of the getAssumptions
call of line 54. -/
def computeSavings (i : MerchantInput) (p : PackageType) (a : Assumptions) :
    CostComparisonResult :=
  { merchantCost :=
      { storage := merchantStorage i p a
        handlingIn := merchantHandlingIn i p a
        handlingOut := merchantHandlingOut i p a
        delivery := merchantDelivery i p a
        overhead := merchantOverhead i p a
        total := merchantTotal i p a }
    rootsCost :=
      { storage := rootsStorage i p a
        handlingIn := rootsHandlingIn i p a
        handlingOut := rootsHandlingOut i p a
        delivery := rootsDelivery i p a
        overhead := rootsOverheadCost a
        total := rootsTotal i p a }
    savings :=
      { monthly := monthlySavings i p a
        yearly := yearlySavings i p a
        percentage := savingsPercentage i p a }
    services := PACKAGE_SERVICES p }

/-- calculateSavings of calculator-results.tsx, lines 51-129.  As in the
source, it takes only the input and the package, and obtains the
assumptions table from the module-level getAssumptions (line 54). -/
def calculateSavings (i : MerchantInput) (p : PackageType) : CostComparisonResult :=
  computeSavings i p getAssumptions

/-- Selector picking the cost of one service out of a party cost block. -/
def serviceCost (c : PartyCost) : ServiceType → ℚ
  | .storage => c.storage
  | .handlingIn => c.handlingIn
  | .handlingOut => c.handlingOut
  | .delivery => c.delivery

/-- An alternative assumptions table, differing from the default one in the
storage cost per square meter.  Used to observe that the engine cannot be
made to use any table other than the module constant. -/
def altAssumptions : Assumptions :=
  { DEFAULT_ASSUMPTIONS with
    storage := { costPerSqm := 13, merchantOverheadMultiplier := 1.25 } }

lemma storage_pair (i : MerchantInput) (p : PackageType) (hw : 0 ≤ i.warehouseSize) :
    0 ≤ rootsStorage i p getAssumptions ∧
      rootsStorage i p getAssumptions ≤ merchantStorage i p getAssumptions := by
  simp only [rootsStorage, merchantStorage, getAssumptions, DEFAULT_ASSUMPTIONS]
  split_ifs with h
  · constructor <;> nlinarith [hw]
  · norm_num

lemma handlingIn_pair (i : MerchantInput) (p : PackageType)
    (ho : 0 ≤ i.ordersPerMonth) (ha : 0 ≤ i.averageItemsPerOrder) :
    0 ≤ rootsHandlingIn i p getAssumptions ∧
      rootsHandlingIn i p getAssumptions ≤ merchantHandlingIn i p getAssumptions := by
  have hi : 0 ≤ totalItems i := mul_nonneg ho ha
  simp only [rootsHandlingIn, merchantHandlingIn, getAssumptions, DEFAULT_ASSUMPTIONS]
  split_ifs with h
  · constructor <;> nlinarith [hi]
  · norm_num

lemma handlingOut_pair (i : MerchantInput) (p : PackageType) (ho : 0 ≤ i.ordersPerMonth) :
    0 ≤ rootsHandlingOut i p getAssumptions ∧
      rootsHandlingOut i p getAssumptions ≤ merchantHandlingOut i p getAssumptions := by
  simp only [rootsHandlingOut, merchantHandlingOut, getAssumptions, DEFAULT_ASSUMPTIONS]
  split_ifs with h
  · constructor <;> nlinarith [ho]
  · norm_num

lemma delivery_pair (i : MerchantInput) (p : PackageType) (ho : 0 ≤ i.ordersPerMonth) :
    0 ≤ rootsDelivery i p getAssumptions ∧
      rootsDelivery i p getAssumptions ≤ merchantDelivery i p getAssumptions := by
  simp only [rootsDelivery, merchantDelivery, getAssumptions, DEFAULT_ASSUMPTIONS]
  split_ifs with h
  · constructor <;> nlinarith [ho]
  · norm_num

lemma subtotal_pair (i : MerchantInput) (p : PackageType) (hw : 0 ≤ i.warehouseSize)
    (ho : 0 ≤ i.ordersPerMonth) (ha : 0 ≤ i.averageItemsPerOrder) :
    0 ≤ rootsSubtotal i p getAssumptions ∧
      rootsSubtotal i p getAssumptions ≤ merchantSubtotal i p getAssumptions := by
  obtain ⟨h1, h1le⟩ := storage_pair i p hw
  obtain ⟨h2, h2le⟩ := handlingIn_pair i p ho ha
  obtain ⟨h3, h3le⟩ := handlingOut_pair i p ho
  obtain ⟨h4, h4le⟩ := delivery_pair i p ho
  rw [rootsSubtotal, merchantSubtotal]
  constructor
  · positivity
  · gcongr

/-- Claim C1.  For every input, package and assumptions table, each service that
the package includes is costed by the stated formulas in the result of the
engine: storage by floor space times the rate (with the merchant overhead
multiplier on the merchant side only), handling by volume times minutes
times labor rate (with the Roots efficiency multiplier on the Roots side),
delivery by a flat per-order rate with no multiplier. -/
theorem included_service_cost_formulas (i : MerchantInput) (p : PackageType) (a : Assumptions) :
    (ServiceType.storage ∈ PACKAGE_SERVICES p →
      (computeSavings i p a).merchantCost.storage =
          i.warehouseSize * a.storage.costPerSqm * a.storage.merchantOverheadMultiplier ∧
        (computeSavings i p a).rootsCost.storage = i.warehouseSize * a.storage.costPerSqm) ∧
    (ServiceType.handlingIn ∈ PACKAGE_SERVICES p →
      (computeSavings i p a).merchantCost.handlingIn =
          totalItems i * a.handlingIn.merchantTimePerItem * a.handlingIn.laborCostPerMinute ∧
        (computeSavings i p a).rootsCost.handlingIn =
          totalItems i * a.handlingIn.rootsTimePerItem * a.handlingIn.laborCostPerMinute *
            a.handlingIn.rootsEfficiencyMultiplier) ∧
    (ServiceType.handlingOut ∈ PACKAGE_SERVICES p →
      (computeSavings i p a).merchantCost.handlingOut =
          i.ordersPerMonth * a.handlingOut.merchantTimePerOrder *
            a.handlingOut.laborCostPerMinute ∧
        (computeSavings i p a).rootsCost.handlingOut =
          i.ordersPerMonth * a.handlingOut.rootsTimePerOrder * a.handlingOut.laborCostPerMinute *
            a.handlingOut.rootsEfficiencyMultiplier) ∧
    (ServiceType.delivery ∈ PACKAGE_SERVICES p →
      (computeSavings i p a).merchantCost.delivery =
          i.ordersPerMonth * a.delivery.deliveryAmman24hrsMerchant ∧
        (computeSavings i p a).rootsCost.delivery =
          i.ordersPerMonth * a.delivery.deliveryAmman24hrsRoots) := by
  cases p <;>
    simp [computeSavings, merchantStorage, rootsStorage, merchantHandlingIn, rootsHandlingIn,
      merchantHandlingOut, rootsHandlingOut, merchantDelivery, rootsDelivery, PACKAGE_SERVICES]

/-- Witness for C1 at warehouseSize 500, ordersPerMonth 1000,
averageItemsPerOrder 2, with the fulfillment package and the default table. -/
theorem included_service_cost_formulas_witness :
    (computeSavings ⟨500, 1000, 2⟩ PackageType.fulfillment DEFAULT_ASSUMPTIONS).merchantCost.storage =
        (500 : ℚ) * DEFAULT_ASSUMPTIONS.storage.costPerSqm *
          DEFAULT_ASSUMPTIONS.storage.merchantOverheadMultiplier ∧
      (computeSavings ⟨500, 1000, 2⟩ PackageType.fulfillment DEFAULT_ASSUMPTIONS).rootsCost.delivery =
        (1000 : ℚ) * DEFAULT_ASSUMPTIONS.delivery.deliveryAmman24hrsRoots :=
  ⟨((included_service_cost_formulas ⟨500, 1000, 2⟩ PackageType.fulfillment
      DEFAULT_ASSUMPTIONS).1 (by decide)).1,
    ((included_service_cost_formulas ⟨500, 1000, 2⟩ PackageType.fulfillment
      DEFAULT_ASSUMPTIONS).2.2.2 (by decide)).2⟩

/-- Claim C2.  For every input with non-negative fields, every package and every
assumptions table: the merchant total is the sum of the four merchant
service costs (excluded services stand at 0, so this sum is the sum of the
included-service costs) plus the merchant overhead; the merchant overhead
is that sum times the merchant overhead rate; the Roots total is the sum
of the four Roots service costs plus the Roots overhead; and the Roots
overhead is the fixed constant of the assumptions table. -/
theorem totals_are_subtotal_plus_overhead (i : MerchantInput) (p : PackageType) (a : Assumptions)
    (hw : 0 ≤ i.warehouseSize) (ho : 0 ≤ i.ordersPerMonth)
    (ha : 0 ≤ i.averageItemsPerOrder) :
    ((computeSavings i p a).merchantCost.total =
        (computeSavings i p a).merchantCost.storage +
          (computeSavings i p a).merchantCost.handlingIn +
          (computeSavings i p a).merchantCost.handlingOut +
          (computeSavings i p a).merchantCost.delivery +
          (computeSavings i p a).merchantCost.overhead) ∧
    ((computeSavings i p a).merchantCost.overhead =
        ((computeSavings i p a).merchantCost.storage +
          (computeSavings i p a).merchantCost.handlingIn +
          (computeSavings i p a).merchantCost.handlingOut +
          (computeSavings i p a).merchantCost.delivery) * a.overhead.merchantOverheadRate) ∧
    ((computeSavings i p a).rootsCost.total =
        (computeSavings i p a).rootsCost.storage + (computeSavings i p a).rootsCost.handlingIn +
          (computeSavings i p a).rootsCost.handlingOut +
          (computeSavings i p a).rootsCost.delivery + (computeSavings i p a).rootsCost.overhead) ∧
    ((computeSavings i p a).rootsCost.overhead = a.overhead.rootsOverhead) := by
  exact ⟨rfl, rfl, rfl, rfl⟩

/-- Witness for C2 at input (500, 1000, 2), fulfillment, default table. -/
theorem totals_are_subtotal_plus_overhead_witness :
    (computeSavings ⟨500, 1000, 2⟩ PackageType.fulfillment DEFAULT_ASSUMPTIONS).merchantCost.total =
      (computeSavings ⟨500, 1000, 2⟩ PackageType.fulfillment
            DEFAULT_ASSUMPTIONS).merchantCost.storage +
        (computeSavings ⟨500, 1000, 2⟩ PackageType.fulfillment
            DEFAULT_ASSUMPTIONS).merchantCost.handlingIn +
        (computeSavings ⟨500, 1000, 2⟩ PackageType.fulfillment
            DEFAULT_ASSUMPTIONS).merchantCost.handlingOut +
        (computeSavings ⟨500, 1000, 2⟩ PackageType.fulfillment
            DEFAULT_ASSUMPTIONS).merchantCost.delivery +
        (computeSavings ⟨500, 1000, 2⟩ PackageType.fulfillment
            DEFAULT_ASSUMPTIONS).merchantCost.overhead :=
  (totals_are_subtotal_plus_overhead ⟨500, 1000, 2⟩ PackageType.fulfillment DEFAULT_ASSUMPTIONS
    (by decide) (by decide) (by decide)).1

/-- Claim C3.  For every input and package, the monthly savings of the result are
the merchant total minus the Roots total, and the yearly savings are
exactly 12 times the monthly savings. -/
theorem savings_monthly_and_yearly (i : MerchantInput) (p : PackageType) :
    (calculateSavings i p).savings.monthly =
        (calculateSavings i p).merchantCost.total - (calculateSavings i p).rootsCost.total ∧
      (calculateSavings i p).savings.yearly = 12 * (calculateSavings i p).savings.monthly := by
  constructor
  · rfl
  · show yearlySavings i p getAssumptions = 12 * monthlySavings i p getAssumptions
    rw [yearlySavings, mul_comm]

/-- Claim C4.  The savings percentage is 0 whenever the merchant total is 0, and
is 100 times the monthly savings divided by the merchant total whenever the
merchant total is positive; the division is guarded by the positivity test,
and the function is total in both cases. -/
theorem savingsPercentage_guarded (i : MerchantInput) (p : PackageType) :
    ((calculateSavings i p).merchantCost.total = 0 →
        (calculateSavings i p).savings.percentage = 0) ∧
      (0 < (calculateSavings i p).merchantCost.total →
        (calculateSavings i p).savings.percentage =
          100 * (calculateSavings i p).savings.monthly /
            (calculateSavings i p).merchantCost.total) := by
  constructor
  · intro h
    show savingsPercentage i p getAssumptions = 0
    have h0 : merchantTotal i p getAssumptions = 0 := h
    rw [savingsPercentage, h0]
    norm_num
  · intro h
    have h' : 0 < merchantTotal i p getAssumptions := h
    show savingsPercentage i p getAssumptions =
      100 * monthlySavings i p getAssumptions / merchantTotal i p getAssumptions
    rw [savingsPercentage, if_pos h']
    ring

/-- Witness for C4: the zero-input scenario exercises the zero branch, the
scenario (500, 1000, 2) the positive branch. -/
theorem savingsPercentage_guarded_witness :
    (calculateSavings ⟨0, 0, 0⟩ PackageType.fulfillment).savings.percentage = 0 ∧
      (calculateSavings ⟨500, 1000, 2⟩ PackageType.fulfillment).savings.percentage =
        100 * (calculateSavings ⟨500, 1000, 2⟩ PackageType.fulfillment).savings.monthly /
          (calculateSavings ⟨500, 1000, 2⟩ PackageType.fulfillment).merchantCost.total :=
  ⟨(savingsPercentage_guarded ⟨0, 0, 0⟩ PackageType.fulfillment).1
      (by simp [calculateSavings, computeSavings, merchantTotal, merchantSubtotal,
        merchantOverhead, merchantStorage, merchantHandlingIn, merchantHandlingOut,
        merchantDelivery, totalItems, getAssumptions, DEFAULT_ASSUMPTIONS, PACKAGE_SERVICES]),
    (savingsPercentage_guarded ⟨500, 1000, 2⟩ PackageType.fulfillment).2
      (by norm_num [calculateSavings, computeSavings, merchantTotal, merchantSubtotal,
        merchantOverhead, merchantStorage, merchantHandlingIn, merchantHandlingOut,
        merchantDelivery, totalItems, getAssumptions, DEFAULT_ASSUMPTIONS, PACKAGE_SERVICES])⟩


/-- Claim C5.  The concrete scenario of the specification: warehouseSize 500,
ordersPerMonth 1000, averageItemsPerOrder 2, fulfillment package, default
assumptions.  Every cost line, both overheads, both totals and the savings
block have exactly the stated values; the percentage is exactly 11525/284,
which lies strictly between 40.58 and 40.59. -/
theorem concrete_scenario_fulfillment :
    (calculateSavings ⟨500, 1000, 2⟩ PackageType.fulfillment).merchantCost.storage = 7500 ∧
    (calculateSavings ⟨500, 1000, 2⟩ PackageType.fulfillment).rootsCost.storage = 6000 ∧
    (calculateSavings ⟨500, 1000, 2⟩ PackageType.fulfillment).merchantCost.handlingIn = 2000 ∧
    (calculateSavings ⟨500, 1000, 2⟩ PackageType.fulfillment).rootsCost.handlingIn = 850 ∧
    (calculateSavings ⟨500, 1000, 2⟩ PackageType.fulfillment).merchantCost.handlingOut = 2500 ∧
    (calculateSavings ⟨500, 1000, 2⟩ PackageType.fulfillment).rootsCost.handlingOut = 1275 ∧
    (calculateSavings ⟨500, 1000, 2⟩ PackageType.fulfillment).merchantCost.delivery = 2200 ∧
    (calculateSavings ⟨500, 1000, 2⟩ PackageType.fulfillment).rootsCost.delivery = 2000 ∧
    (calculateSavings ⟨500, 1000, 2⟩ PackageType.fulfillment).merchantCost.overhead = 2840 ∧
    (calculateSavings ⟨500, 1000, 2⟩ PackageType.fulfillment).merchantCost.total = 17040 ∧
    (calculateSavings ⟨500, 1000, 2⟩ PackageType.fulfillment).rootsCost.overhead = 0 ∧
    (calculateSavings ⟨500, 1000, 2⟩ PackageType.fulfillment).rootsCost.total = 10125 ∧
    (calculateSavings ⟨500, 1000, 2⟩ PackageType.fulfillment).savings.monthly = 6915 ∧
    (calculateSavings ⟨500, 1000, 2⟩ PackageType.fulfillment).savings.yearly = 82980 ∧
    (calculateSavings ⟨500, 1000, 2⟩ PackageType.fulfillment).savings.percentage = 11525 / 284 ∧
    (40.58 : ℚ) < (calculateSavings ⟨500, 1000, 2⟩ PackageType.fulfillment).savings.percentage ∧
    (calculateSavings ⟨500, 1000, 2⟩ PackageType.fulfillment).savings.percentage < 40.59 := by
  norm_num [calculateSavings, computeSavings, savingsPercentage, monthlySavings, yearlySavings,
    merchantTotal, merchantSubtotal, merchantOverhead, rootsTotal, rootsSubtotal,
    rootsOverheadCost, merchantStorage, merchantHandlingIn, merchantHandlingOut,
    merchantDelivery, rootsStorage, rootsHandlingIn, rootsHandlingOut, rootsDelivery,
    totalItems, getAssumptions, DEFAULT_ASSUMPTIONS, PACKAGE_SERVICES]

/-- Claim C6.  A service the package does not include costs exactly 0 for both
parties, and a service the package does include has the same per-service
cost as under the full fulfillment bundle, for both parties: excluding one
service never changes the cost of another. -/
theorem excluded_zero_included_unchanged (i : MerchantInput) (p : PackageType)
    (s : ServiceType) :
    (s ∉ PACKAGE_SERVICES p →
      serviceCost (calculateSavings i p).merchantCost s = 0 ∧
        serviceCost (calculateSavings i p).rootsCost s = 0) ∧
    (s ∈ PACKAGE_SERVICES p →
      serviceCost (calculateSavings i p).merchantCost s =
          serviceCost (calculateSavings i PackageType.fulfillment).merchantCost s ∧
        serviceCost (calculateSavings i p).rootsCost s =
          serviceCost (calculateSavings i PackageType.fulfillment).rootsCost s) := by
  cases p <;> cases s <;>
    simp [calculateSavings, computeSavings, serviceCost, merchantStorage, rootsStorage,
      merchantHandlingIn, rootsHandlingIn, merchantHandlingOut, rootsHandlingOut,
      merchantDelivery, rootsDelivery, PACKAGE_SERVICES]

/-- Witness for C6: storage is excluded from the sort-pack bundle and
included in the store-pack bundle. -/
theorem excluded_zero_included_unchanged_witness :
    (serviceCost (calculateSavings ⟨500, 1000, 2⟩ PackageType.sortPack).merchantCost
          ServiceType.storage = 0 ∧
        serviceCost (calculateSavings ⟨500, 1000, 2⟩ PackageType.sortPack).rootsCost
          ServiceType.storage = 0) ∧
      serviceCost (calculateSavings ⟨500, 1000, 2⟩ PackageType.storePack).merchantCost
          ServiceType.storage =
        serviceCost (calculateSavings ⟨500, 1000, 2⟩ PackageType.fulfillment).merchantCost
          ServiceType.storage :=
  ⟨(excluded_zero_included_unchanged ⟨500, 1000, 2⟩ PackageType.sortPack ServiceType.storage).1
      (by decide),
    ((excluded_zero_included_unchanged ⟨500, 1000, 2⟩ PackageType.storePack
        ServiceType.storage).2 (by decide)).1⟩

/-- Claim C7.  Under the default assumptions, raising ordersPerMonth while
holding warehouseSize and averageItemsPerOrder fixed never lowers the
handling-out cost or the delivery cost of either party, whatever the
package. -/
theorem handlingOut_delivery_monotone_in_orders (w ai o₁ o₂ : ℚ) (p : PackageType)
    (hw : 0 ≤ w) (hai : 0 ≤ ai) (ho : 0 ≤ o₁) (h : o₁ ≤ o₂) :
    (calculateSavings ⟨w, o₁, ai⟩ p).merchantCost.handlingOut ≤
        (calculateSavings ⟨w, o₂, ai⟩ p).merchantCost.handlingOut ∧
      (calculateSavings ⟨w, o₁, ai⟩ p).rootsCost.handlingOut ≤
        (calculateSavings ⟨w, o₂, ai⟩ p).rootsCost.handlingOut ∧
      (calculateSavings ⟨w, o₁, ai⟩ p).merchantCost.delivery ≤
        (calculateSavings ⟨w, o₂, ai⟩ p).merchantCost.delivery ∧
      (calculateSavings ⟨w, o₁, ai⟩ p).rootsCost.delivery ≤
        (calculateSavings ⟨w, o₂, ai⟩ p).rootsCost.delivery := by
  cases p <;>
    · refine ⟨?_, ?_, ?_, ?_⟩ <;>
        simp [calculateSavings, computeSavings, merchantHandlingOut, rootsHandlingOut,
          merchantDelivery, rootsDelivery, PACKAGE_SERVICES, getAssumptions,
          DEFAULT_ASSUMPTIONS] <;>
        nlinarith [h, ho]

/-- Witness for C7 with orders rising from 1000 to 1500. -/
theorem handlingOut_delivery_monotone_in_orders_witness :
    (calculateSavings ⟨500, 1000, 2⟩ PackageType.fulfillment).merchantCost.handlingOut ≤
      (calculateSavings ⟨500, 1500, 2⟩ PackageType.fulfillment).merchantCost.handlingOut :=
  (handlingOut_delivery_monotone_in_orders 500 2 1000 1500 PackageType.fulfillment (by decide)
    (by decide) (by decide) (by decide)).1

/-- Claim C8.  For every input, every assumptions table and every service, any
two packages that both include the service give it the same per-service
cost for each party: switching packages only changes which services are
summed, never the unit-cost formulas. -/
theorem unit_costs_independent_of_package (i : MerchantInput) (a : Assumptions)
    (p q : PackageType) (s : ServiceType) (hp : s ∈ PACKAGE_SERVICES p)
    (hq : s ∈ PACKAGE_SERVICES q) :
    serviceCost (computeSavings i p a).merchantCost s =
        serviceCost (computeSavings i q a).merchantCost s ∧
      serviceCost (computeSavings i p a).rootsCost s =
        serviceCost (computeSavings i q a).rootsCost s := by
  cases p <;> cases q <;> cases s <;>
    simp_all [computeSavings, serviceCost, merchantStorage, rootsStorage, merchantHandlingIn,
      rootsHandlingIn, merchantHandlingOut, rootsHandlingOut, merchantDelivery, rootsDelivery,
      PACKAGE_SERVICES]

/-- Witness for C8: inbound handling is included in both the store-pack and
the sort-pack bundles. -/
theorem unit_costs_independent_of_package_witness :
    serviceCost (computeSavings ⟨500, 1000, 2⟩ PackageType.storePack
          DEFAULT_ASSUMPTIONS).merchantCost ServiceType.handlingIn =
      serviceCost (computeSavings ⟨500, 1000, 2⟩ PackageType.sortPack
          DEFAULT_ASSUMPTIONS).merchantCost ServiceType.handlingIn :=
  (unit_costs_independent_of_package ⟨500, 1000, 2⟩ DEFAULT_ASSUMPTIONS PackageType.storePack
    PackageType.sortPack ServiceType.handlingIn (by decide) (by decide)).1

/-- Claim C9, counterexample.  The source calculateSavings takes no assumptions
argument: line 54 fetches the table with getAssumptions(), which returns
the module constant DEFAULT_ASSUMPTIONS.  Its result therefore always
agrees with the parameterized computation at DEFAULT_ASSUMPTIONS, and a
caller holding a different table, here altAssumptions, cannot make the
engine use it: the table is read from the module, not injected. -/
theorem assumptions_read_from_module_constant :
    calculateSavings ⟨500, 1000, 2⟩ PackageType.fulfillment =
        computeSavings ⟨500, 1000, 2⟩ PackageType.fulfillment DEFAULT_ASSUMPTIONS ∧
      calculateSavings ⟨500, 1000, 2⟩ PackageType.fulfillment ≠
        computeSavings ⟨500, 1000, 2⟩ PackageType.fulfillment altAssumptions := by
  refine ⟨rfl, fun h => ?_⟩
  have hs := congrArg (fun r => r.merchantCost.storage) h
  norm_num [calculateSavings, computeSavings, merchantStorage, getAssumptions,
    DEFAULT_ASSUMPTIONS, altAssumptions, PACKAGE_SERVICES] at hs

/-- Claim C9, amended.  The engine is a pure deterministic function of the input
and the package alone: it factors through the parameterized computation
computeSavings applied to the module constant DEFAULT_ASSUMPTIONS. -/
theorem calculateSavings_deterministic_from_module_table (i : MerchantInput)
    (p : PackageType) :
    calculateSavings i p = computeSavings i p DEFAULT_ASSUMPTIONS := rfl

/-- Claim C10.  Under the default assumptions, for non-negative inputs and any
package, the Roots cost of every service is at most the merchant cost of
that service, the monthly savings are non-negative and the savings
percentage lies between 0 and 100. -/
theorem default_assumptions_savings_nonneg (i : MerchantInput) (p : PackageType)
    (hw : 0 ≤ i.warehouseSize) (ho : 0 ≤ i.ordersPerMonth)
    (ha : 0 ≤ i.averageItemsPerOrder) :
    (∀ s, serviceCost (calculateSavings i p).rootsCost s ≤
        serviceCost (calculateSavings i p).merchantCost s) ∧
      0 ≤ (calculateSavings i p).savings.monthly ∧
      0 ≤ (calculateSavings i p).savings.percentage ∧
      (calculateSavings i p).savings.percentage ≤ 100 := by
  obtain ⟨hSr, hle⟩ := subtotal_pair i p hw ho ha
  have hrT : rootsTotal i p getAssumptions = rootsSubtotal i p getAssumptions := by
    simp [rootsTotal, rootsOverheadCost, getAssumptions, DEFAULT_ASSUMPTIONS]
  have hmT : merchantTotal i p getAssumptions =
      merchantSubtotal i p getAssumptions * (6 / 5) := by
    show merchantSubtotal i p getAssumptions + merchantOverhead i p getAssumptions = _
    rw [merchantOverhead]
    show _ + _ * (DEFAULT_ASSUMPTIONS.overhead.merchantOverheadRate) = _
    rw [DEFAULT_ASSUMPTIONS]
    norm_num
    ring
  have hMs : 0 ≤ monthlySavings i p getAssumptions := by
    rw [monthlySavings, hmT, hrT]
    nlinarith [hSr, hle]
  have hMsle : monthlySavings i p getAssumptions ≤ merchantTotal i p getAssumptions := by
    rw [monthlySavings, hrT]
    nlinarith [hSr]
  refine ⟨?_, hMs, ?_, ?_⟩
  · intro s
    cases s
    · exact (storage_pair i p hw).2
    · exact (handlingIn_pair i p ho ha).2
    · exact (handlingOut_pair i p ho).2
    · exact (delivery_pair i p ho).2
  · show 0 ≤ savingsPercentage i p getAssumptions
    rw [savingsPercentage]
    split_ifs with hpos
    · have hd : 0 ≤ monthlySavings i p getAssumptions / merchantTotal i p getAssumptions :=
        div_nonneg hMs (le_of_lt hpos)
      nlinarith [hd]
    · exact le_refl 0
  · show savingsPercentage i p getAssumptions ≤ 100
    rw [savingsPercentage]
    split_ifs with hpos
    · rw [div_mul_eq_mul_div, div_le_iff₀ hpos]
      nlinarith [hMsle, hpos]
    · norm_num

/-- Witness for C10 at input (500, 1000, 2) with the fulfillment package. -/
theorem default_assumptions_savings_nonneg_witness :
    0 ≤ (calculateSavings ⟨500, 1000, 2⟩ PackageType.fulfillment).savings.monthly ∧
      (calculateSavings ⟨500, 1000, 2⟩ PackageType.fulfillment).savings.percentage ≤ 100 :=
  ⟨(default_assumptions_savings_nonneg ⟨500, 1000, 2⟩ PackageType.fulfillment (by decide)
      (by decide) (by decide)).2.1,
    (default_assumptions_savings_nonneg ⟨500, 1000, 2⟩ PackageType.fulfillment (by decide)
      (by decide) (by decide)).2.2.2⟩

end RootsCalc
